import Mathlib

/-!
Verification of the turbodrone ground-station core against its
natural-language specification.

The Python source is shallowly embedded: floats become rationals (`ℚ`),
except for the joystick "expo" curve of the direct control strategy,
which computes a real power and is embedded over `ℝ`.  Python `int(x)`
truncation toward zero becomes `pyInt`, and `& 0xFF` on a Python integer
becomes reduction modulo 256 (`toByte`).  Byte strings become `List ℕ`
with every element below 256.  Mutating methods become functions from a
state record to an updated state record (plus the value produced).
-/

namespace Turbodrone

/-- Python `int(x)` on a float: truncation toward zero, embedded on `ℚ`
(floor for non-negative values, ceiling for negative ones). -/
def pyInt (q : ℚ) : ℤ :=
  if 0 ≤ q then ⌊q⌋ else ⌈q⌉

/-- Python `n & 0xFF` on an arbitrary (possibly negative) integer:
reduction modulo 256, as a byte value. -/
def toByte (n : ℤ) : ℕ :=
  (n % 256).toNat

/-- XOR-fold of a byte list, as in the checksum loops of the encoders. -/
def xorBytes (l : List ℕ) : ℕ :=
  l.foldl Nat.xor 0

/-- Embedding of `int.to_bytes(2, "little")` for a value below 2^16. -/
def le16 (n : ℕ) : List ℕ :=
  [n % 256, n / 256 % 256]

/-- Embedding of `int.to_bytes(2, "big")` for a value below 2^16. -/
def be16 (n : ℕ) : List ℕ :=
  [n / 256 % 256, n % 256]

/-! ## Drop-oldest frame queue (`utils/dropping_queue.py`)

`DroppingQueue.put` works under the queue mutex: when the queue is
bounded (`maxsize > 0`) and already holds `maxsize` or more items it
removes exactly one oldest item (`self._get()`), fixes the
unfinished-task counter, then appends the new item (`self._put(item)`).
The list is kept in dequeue order: the head is the oldest element. -/

structure DQ (α : Type) where
  items : List α
  unfinished : ℕ

/-- Embedding of `DroppingQueue.put` for a queue of capacity `c`
(`maxsize`).  Total: no branch blocks or raises. -/
def DQ.put (c : ℕ) (q : DQ α) (x : α) : DQ α :=
  if 0 < c ∧ c ≤ q.items.length then
    { items := q.items.drop 1 ++ [x],
      unfinished := (if 0 < q.unfinished then q.unfinished - 1 else q.unfinished) + 1 }
  else
    { items := q.items ++ [x], unfinished := q.unfinished + 1 }

/-- The empty queue. -/
def DQ.empty (α : Type) : DQ α := { items := [], unfinished := 0 }

/-! ## Family A RC model and encoder (`models/s2x_rc.py`,
`protocols/s2x_rc_protocol_adapter.py`)

The model state mirrors `S2xDroneModel`: stick-range bounds and profile
rates from `BaseRCModel`, four raw axis values, four remembered axis
directions, one-shot flags, speed and record state. -/

structure S2xModel where
  min_control_value : ℚ
  center_value : ℚ
  max_control_value : ℚ
  accel_rate : ℚ
  decel_rate : ℚ
  expo_factor : ℚ
  immediate_response : ℚ
  throttle : ℚ
  yaw : ℚ
  pitch : ℚ
  roll : ℚ
  last_throttle_dir : ℚ
  last_yaw_dir : ℚ
  last_pitch_dir : ℚ
  last_roll_dir : ℚ
  takeoff_flag : Bool
  land_flag : Bool
  stop_flag : Bool
  headless_flag : Bool
  calibration_flag : Bool
  speed : ℕ
  record_state : ℕ

/-- Construction of `S2xDroneModel` (`BaseRCModel.__init__` plus the S2x
constructor): `STICK_RANGE = (60, 128, 200)`, every axis starts at the
centre value, all one-shot flags `False`, `speed = 20` (0x14),
`record_state = 0`, last directions `0`.  The profile response rates are
parameters (the source derives them from a `ControlProfile`). -/
def s2x_init (accel decel expo imm : ℚ) : S2xModel :=
  { min_control_value := 60, center_value := 128, max_control_value := 200,
    accel_rate := accel, decel_rate := decel, expo_factor := expo,
    immediate_response := imm,
    throttle := 128, yaw := 128, pitch := 128, roll := 128,
    last_throttle_dir := 0, last_yaw_dir := 0, last_pitch_dir := 0,
    last_roll_dir := 0,
    takeoff_flag := false, land_flag := false, stop_flag := false,
    headless_flag := false, calibration_flag := false,
    speed := 20, record_state := 0 }

/-- Embedding of `S2xDroneModel.takeoff()`. -/
def s2x_takeoff (m : S2xModel) : S2xModel :=
  { m with takeoff_flag := true }

/-- Embedding of `S2xRCProtocolAdapter._remap_to_full_range`: remap the constrained
stick range to the full 0..255 wire range. -/
def remap_to_full_range (m : S2xModel) (value : ℚ) : ℚ :=
  if value ≥ m.center_value then
    128 + (value - m.center_value) * (255 - 128) /
      (m.max_control_value - m.center_value)
  else
    (value - m.min_control_value) * 128 /
      (m.center_value - m.min_control_value)

/-- The axis byte family A writes: `int(remap(value)) & 0xFF`. -/
def s2x_axis_byte (m : S2xModel) (value : ℚ) : ℕ :=
  toByte (pyInt (remap_to_full_range m value))

/-- Byte 6 of the family A packet: `0x00`, then `|= 0x01/0x02/0x04` for
the takeoff/land/stop flags. -/
def s2x_flags6 (m : S2xModel) : ℕ :=
  (if m.takeoff_flag then 0x01 else 0) |||
  (if m.land_flag then 0x02 else 0) |||
  (if m.stop_flag then 0x04 else 0)

/-- Byte 7 of the family A packet: base `0x0a`, `|= record_state << 2`
when the record state is non-zero. -/
def s2x_flags7 (m : S2xModel) : ℕ :=
  if m.record_state ≠ 0 then 0x0a ||| (m.record_state <<< 2) else 0x0a

/-- Embedding of `S2xRCProtocolAdapter.build_control_packet`: the 20-byte packet and
the model with its one-shot flags cleared. -/
def s2x_build_control_packet (m : S2xModel) : List ℕ × S2xModel :=
  let b2 := s2x_axis_byte m m.roll
  let b3 := s2x_axis_byte m m.pitch
  let b4 := s2x_axis_byte m m.throttle
  let b5 := s2x_axis_byte m m.yaw
  let b6 := s2x_flags6 m
  let b7 := s2x_flags7 m
  let chk := xorBytes [b2, b3, b4, b5, b6, b7, 0, 0, 0, 0, 0, 0, 0, 0, 0, 0]
  ([0x66, m.speed &&& 0xFF, b2, b3, b4, b5, b6, b7,
    0, 0, 0, 0, 0, 0, 0, 0, 0, 0, chk &&& 0xFF, 0x99],
   { m with takeoff_flag := false, land_flag := false, stop_flag := false })

/-- One axis of `S2xDroneModel.update_axes` (the same code appears in
`WifiUavRcModel.update_axes` and `CooingdvRcModel.update_axes`): apply
acceleration, deceleration and the direction-change boost for a single
axis with current value `cur`, commanded direction `dir` and remembered
direction `last_dir`. -/
def s2x_update_axis (m : S2xModel) (boost : Bool) (dt dir last_dir cur : ℚ) : ℚ :=
  if dir > 0 then
    let cur1 := if boost ∧ last_dir ≤ 0 then
        cur + min (m.max_control_value - cur) m.immediate_response
      else cur
    let accel := m.accel_rate * dt *
      (1 + m.expo_factor * (m.max_control_value - cur1) /
        (m.max_control_value - m.center_value))
    min m.max_control_value (cur1 + accel)
  else if dir < 0 then
    let cur1 := if boost ∧ last_dir ≥ 0 then
        cur - min (cur - m.min_control_value) m.immediate_response
      else cur
    let accel := m.accel_rate * dt *
      (1 + m.expo_factor * (cur1 - m.min_control_value) /
        (m.center_value - m.min_control_value))
    max m.min_control_value (cur1 - accel)
  else
    if cur > m.center_value then
      max m.center_value (cur - m.decel_rate * dt *
        (1 + (1/2) * (cur - m.center_value) /
          (m.max_control_value - m.center_value)))
    else if cur < m.center_value then
      min m.center_value (cur + m.decel_rate * dt *
        (1 + (1/2) * (m.center_value - cur) /
          (m.center_value - m.min_control_value)))
    else cur

/-- Embedding of `S2xDroneModel.update_axes`: throttle and yaw without boost, pitch
and roll with boost; each axis also records its commanded direction.
Under the incremental strategy `update(dt, axes)` is exactly this
function applied to the four axis inputs. -/
def s2x_update_axes (m : S2xModel) (dt throttle_dir yaw_dir pitch_dir roll_dir : ℚ) :
    S2xModel :=
  { m with
    throttle := s2x_update_axis m false dt throttle_dir m.last_throttle_dir m.throttle,
    yaw := s2x_update_axis m false dt yaw_dir m.last_yaw_dir m.yaw,
    pitch := s2x_update_axis m true dt pitch_dir m.last_pitch_dir m.pitch,
    roll := s2x_update_axis m true dt roll_dir m.last_roll_dir m.roll,
    last_throttle_dir := throttle_dir,
    last_yaw_dir := yaw_dir,
    last_pitch_dir := pitch_dir,
    last_roll_dir := roll_dir }

/-- The expo curve of `DirectStrategy.update`: when the profile's expo
factor is non-zero, `v ↦ sign(v)·|v|^(1+expo)` (a real power, hence the
embedding over `ℝ`). -/
noncomputable def direct_expo (expo v : ℝ) : ℝ :=
  if expo = 0 then v else (if 0 ≤ v then 1 else -1) * |v| ^ (1 + expo)

/-- Embedding of `BaseRCModel._scale_normalised`: map a normalised `[-1, +1]` input
into raw protocol units. -/
noncomputable def scale_normalised (mn md mx v : ℝ) : ℝ :=
  if 0 ≤ v then md + v * (mx - md) else md + v * (md - mn)

/-- The raw axis value assigned by `DirectStrategy.update` for one axis
input `v`. -/
noncomputable def direct_axis (mn md mx expo v : ℝ) : ℝ :=
  scale_normalised mn md mx (direct_expo expo v)

/-! ## Family B RC model and encoder (`models/wifi_uav_rc.py`,
`protocols/wifi_uav_rc_protocol_adapter.py`) -/

structure WifiUavModel where
  min_control_value : ℚ
  center_value : ℚ
  max_control_value : ℚ
  accel_rate : ℚ
  decel_rate : ℚ
  expo_factor : ℚ
  immediate_response : ℚ
  throttle : ℚ
  yaw : ℚ
  pitch : ℚ
  roll : ℚ
  takeoff_flag : Bool
  land_flag : Bool
  stop_flag : Bool
  calibration_flag : Bool
  headless_flag : Bool

/-- Construction of `WifiUavRcModel`: `STICK_RANGE = (40, 128, 220)`,
axes centred, all flags `False`. -/
def wifiuav_init (accel decel expo imm : ℚ) : WifiUavModel :=
  { min_control_value := 40, center_value := 128, max_control_value := 220,
    accel_rate := accel, decel_rate := decel, expo_factor := expo,
    immediate_response := imm,
    throttle := 128, yaw := 128, pitch := 128, roll := 128,
    takeoff_flag := false, land_flag := false, stop_flag := false,
    calibration_flag := false, headless_flag := false }

/-- The three rolling 16-bit counters of `WifiUavRcProtocolAdapter`,
initialised to `0x0000, 0x0001, 0x0002` in `__init__`. -/
structure WifiUavAdapter where
  ctr1 : ℕ
  ctr2 : ℕ
  ctr3 : ℕ

def wifiuav_adapter_init : WifiUavAdapter :=
  { ctr1 := 0x0000, ctr2 := 0x0001, ctr3 := 0x0002 }

def wifiuav_HEADER : List ℕ :=
  [0xef, 0x02, 0x7c, 0x00, 0x02, 0x02, 0x00, 0x01, 0x02, 0x00, 0x00, 0x00]

def wifiuav_COUNTER1_SUFFIX : List ℕ :=
  [0x00, 0x00, 0x14, 0x00, 0x66, 0x14]

def wifiuav_CONTROL_SUFFIX : List ℕ :=
  List.replicate 10 0x00

def wifiuav_CHECKSUM_SUFFIX : List ℕ :=
  [0x99] ++ List.replicate 44 0x00 ++ [0x32, 0x4b, 0x14, 0x2d, 0x00, 0x00]

def wifiuav_COUNTER2_SUFFIX : List ℕ :=
  [0x00, 0x00, 0x00, 0x00, 0x00, 0x00, 0x01, 0x00,
   0x00, 0x00, 0x14, 0x00, 0x00, 0x00,
   0xff, 0xff, 0xff, 0xff]

def wifiuav_COUNTER3_SUFFIX : List ℕ :=
  [0x00, 0x00, 0x00, 0x00, 0x00, 0x00,
   0x03, 0x00, 0x00, 0x00, 0x10, 0x00,
   0x00, 0x00]

/-- Embedding of `WifiUavRcProtocolAdapter.build_control_packet`: serialize the three
counters little-endian, derive the command and headless bytes, write the
six control bytes with their XOR checksum, advance each counter by one
modulo 2^16, clear the one-shot flags. -/
def wifiuav_build_control_packet (a : WifiUavAdapter) (m : WifiUavModel) :
    List ℕ × WifiUavAdapter × WifiUavModel :=
  let c1 := le16 a.ctr1
  let c2 := le16 a.ctr2
  let c3 := le16 a.ctr3
  let a' : WifiUavAdapter :=
    { ctr1 := (a.ctr1 + 1) &&& 0xFFFF,
      ctr2 := (a.ctr2 + 1) &&& 0xFFFF,
      ctr3 := (a.ctr3 + 1) &&& 0xFFFF }
  let command : ℕ :=
    if m.takeoff_flag then 0x01
    else if m.stop_flag then 0x02
    else if m.land_flag then 0x02
    else if m.calibration_flag then 0x04
    else 0x00
  let headless : ℕ := if m.headless_flag then 0x03 else 0x02
  let controls : List ℕ :=
    [toByte (pyInt m.roll), toByte (pyInt m.pitch),
     toByte (pyInt m.throttle), toByte (pyInt m.yaw),
     command &&& 0xFF, headless &&& 0xFF]
  let checksum := controls.foldl Nat.xor 0
  let pkt := wifiuav_HEADER ++ c1 ++ wifiuav_COUNTER1_SUFFIX ++ controls ++
    wifiuav_CONTROL_SUFFIX ++ [checksum] ++ wifiuav_CHECKSUM_SUFFIX ++
    c2 ++ wifiuav_COUNTER2_SUFFIX ++ c3 ++ wifiuav_COUNTER3_SUFFIX
  (pkt, a',
   { m with takeoff_flag := false, land_flag := false, stop_flag := false,
            calibration_flag := false })

/-! ## Family C RC model and encoder (`models/cooingdv_rc.py`,
`protocols/cooingdv_rc_protocol_adapter.py`) -/

structure CooingdvModel where
  min_control_value : ℚ
  center_value : ℚ
  max_control_value : ℚ
  accel_rate : ℚ
  decel_rate : ℚ
  expo_factor : ℚ
  immediate_response : ℚ
  throttle : ℚ
  yaw : ℚ
  pitch : ℚ
  roll : ℚ
  takeoff_flag : Bool
  land_flag : Bool
  stop_flag : Bool
  flip_flag : Bool
  headless_flag : Bool
  calibration_flag : Bool

/-- Construction of `CooingdvRcModel`: `STICK_RANGE = (50, 128, 200)`,
axes centred, all flags `False`. -/
def cooingdv_init (accel decel expo imm : ℚ) : CooingdvModel :=
  { min_control_value := 50, center_value := 128, max_control_value := 200,
    accel_rate := accel, decel_rate := decel, expo_factor := expo,
    immediate_response := imm,
    throttle := 128, yaw := 128, pitch := 128, roll := 128,
    takeoff_flag := false, land_flag := false, stop_flag := false,
    flip_flag := false, headless_flag := false, calibration_flag := false }

/-- Embedding of `CooingdvRcProtocolAdapter._clamp_axis`:
`max(0, min(255, int(value))) & 0xFF`. -/
def cooingdv_clamp_axis (value : ℚ) : ℕ :=
  toByte (max 0 (min 255 (pyInt value)))

/-- Embedding of `CooingdvRcProtocolAdapter._build_flags`. -/
def cooingdv_build_flags (m : CooingdvModel) : ℕ :=
  ((if m.takeoff_flag then 0x01 else 0) |||
   (if m.land_flag then 0x02 else 0) |||
   (if m.stop_flag then 0x04 else 0) |||
   (if m.flip_flag then 0x08 else 0) |||
   (if m.headless_flag then 0x10 else 0) |||
   (if m.calibration_flag then 0x80 else 0)) &&& 0xFF

/-- Embedding of `CooingdvRcProtocolAdapter._calculate_checksum`. -/
def cooingdv_checksum (data : List ℕ) : ℕ :=
  (data.foldl Nat.xor 0) &&& 0xFF

/-- Embedding of `CooingdvRcProtocolAdapter.build_control_packet`: the 9-byte packet
and the model with its one-shot flags cleared (`headless_flag` is a
toggle state and is not cleared). -/
def cooingdv_build_control_packet (m : CooingdvModel) :
    List ℕ × CooingdvModel :=
  let b2 := cooingdv_clamp_axis m.roll
  let b3 := cooingdv_clamp_axis m.pitch
  let b4 := cooingdv_clamp_axis m.throttle
  let b5 := cooingdv_clamp_axis m.yaw
  let b6 := cooingdv_build_flags m
  ([0x03, 0x66, b2, b3, b4, b5, b6, cooingdv_checksum [b2, b3, b4, b5, b6], 0x99],
   { m with takeoff_flag := false, land_flag := false, stop_flag := false,
            flip_flag := false, calibration_flag := false })

/-! ## Video frames and reassembly (`models/s2x_video_model.py`,
`protocols/wifi_uav_video_protocol.py`, `experimental/wifi_uav/jpeg.py`)

Python `dict` keyed by fragment index becomes an association list in
insertion order; `setdefault` keeps an existing entry, `sorted(d)`
sorts the keys ascending. -/

structure VideoFrame where
  frame_id : Option ℕ
  data : List ℕ
  deriving DecidableEq

def dictContains (d : List (ℕ × List ℕ)) (k : ℕ) : Bool :=
  d.any (fun p => p.1 == k)

def dictSetdefault (d : List (ℕ × List ℕ)) (k : ℕ) (v : List ℕ) :
    List (ℕ × List ℕ) :=
  if dictContains d k then d else d ++ [(k, v)]

def dictGet (d : List (ℕ × List ℕ)) (k : ℕ) : List ℕ :=
  ((d.find? (fun p => p.1 == k)).map Prod.snd).getD []

def insertSorted (x : ℕ) : List ℕ → List ℕ
  | [] => [x]
  | y :: ys => if x ≤ y then x :: y :: ys else y :: insertSorted x ys

def sortKeys (l : List ℕ) : List ℕ :=
  l.foldr insertSorted []

/-- Python `bytes.find(pat)` for a two-byte pattern (as `Option` instead
of the `-1` sentinel): index of the first occurrence. -/
def findFirst2 (a b : ℕ) : List ℕ → Option ℕ
  | x :: y :: rest =>
      if x = a ∧ y = b then some 0
      else (findFirst2 a b (y :: rest)).map (· + 1)
  | _ => none

/-- Python `bytes.rfind(pat)` for a two-byte pattern: index of the last
occurrence. -/
def findLast2 (a b : ℕ) : List ℕ → Option ℕ
  | x :: y :: rest =>
      match findLast2 a b (y :: rest) with
      | some i => some (i + 1)
      | none => if x = a ∧ y = b then some 0 else none
  | _ => none

/-- Python `bytes.find(pat)` with its `-1` not-found sentinel. -/
def pyFind2 (a b : ℕ) (l : List ℕ) : ℤ :=
  match findFirst2 a b l with
  | some i => (i : ℤ)
  | none => -1

/-- Python `bytes.rfind(pat)` with its `-1` not-found sentinel. -/
def pyRfind2 (a b : ℕ) (l : List ℕ) : ℤ :=
  match findLast2 a b l with
  | some i => (i : ℤ)
  | none => -1

/-- Reassembly state of `S2xVideoModel`. -/
structure S2xVideoState where
  cur_fid : Option ℕ
  frags : List (ℕ × List ℕ)
  deriving DecidableEq

/-- Embedding of `S2xVideoModel._assemble_current`: require slice-id contiguity,
concatenate the slices in key order, locate the first JPEG SOI and the
last EOI (`start < 0 or end < 0 or end <= start` drops the frame), and
emit the byte range `[SOI, EOI+2)`; on success the state is reset. -/
def s2x_assemble_current (s : S2xVideoState) : Option VideoFrame × S2xVideoState :=
  if s.frags.isEmpty then (none, s)
  else
    let keys := sortKeys (s.frags.map Prod.fst)
    if keys.length = keys.getLast?.getD 0 - keys.head?.getD 0 + 1 then
      let data := (keys.map (dictGet s.frags)).flatten
      let start := pyFind2 0xFF 0xD8 data
      let stop := pyRfind2 0xFF 0xD9 data
      if start < 0 ∨ stop < 0 ∨ stop ≤ start then (none, s)
      else (some { frame_id := s.cur_fid,
                   data := (data.drop start.toNat).take (stop.toNat + 2 - start.toNat) },
            { cur_fid := none, frags := [] })
    else (none, s)

/-! JPEG header synthesis (`generate_jpeg_headers` and helpers). -/

def SOI : List ℕ := [0xff, 0xd8]

def EOI : List ℕ := [0xff, 0xd9]

def std_luminance_qt : List ℕ :=
  [16, 11, 10, 16, 24, 40, 51, 61,
   12, 12, 14, 19, 26, 58, 60, 55,
   14, 13, 16, 24, 40, 57, 69, 56,
   14, 17, 22, 29, 51, 87, 80, 62,
   18, 22, 37, 56, 68, 109, 103, 77,
   24, 35, 55, 64, 81, 104, 113, 92,
   49, 64, 78, 87, 103, 121, 120, 101,
   72, 92, 95, 98, 112, 100, 103, 99]

def std_chrominance_qt : List ℕ :=
  [17, 18, 24, 47, 99, 99, 99, 99,
   18, 21, 26, 66, 99, 99, 99, 99,
   24, 26, 56, 99, 99, 99, 99, 99,
   47, 66, 99, 99, 99, 99, 99, 99,
   99, 99, 99, 99, 99, 99, 99, 99,
   99, 99, 99, 99, 99, 99, 99, 99,
   99, 99, 99, 99, 99, 99, 99, 99,
   99, 99, 99, 99, 99, 99, 99, 99]

/-- Embedding of `generate_dqt_segment` with the default 8-bit precision. -/
def generate_dqt_segment (tid : ℕ) (table : List ℕ) : List ℕ :=
  let payload := [(0 <<< 4) ||| tid] ++ table
  [0xff, 0xdb] ++ be16 (payload.length + 2) ++ payload

/-- Embedding of `generate_sof0_segment`: baseline DCT frame header, 8-bit samples,
4:4:4 sampling, quantization table 0 for Y and 1 for Cb/Cr. -/
def generate_sof0_segment (width height num_components : ℕ) : List ℕ :=
  let comps := if num_components = 1 then [1, 0x11, 0]
    else [1, 0x11, 0, 2, 0x11, 1, 3, 0x11, 1]
  [0xff, 0xc0] ++ be16 (8 + 3 * num_components) ++ [8] ++
    be16 height ++ be16 width ++ [num_components] ++ comps

/-- Embedding of `generate_sos_segment`: DC/AC table selector 0x00 for Y, 0x11 for
Cb/Cr, spectral selection 0..63. -/
def generate_sos_segment (num_components : ℕ) : List ℕ :=
  let comps := if num_components = 1 then [1, 0x00]
    else [1, 0x00, 2, 0x11, 3, 0x11]
  [0xff, 0xda] ++ be16 (6 + 2 * num_components) ++ [num_components] ++
    comps ++ [0, 63, 0]

/-- Embedding of `generate_jpeg_headers`: SOI, luminance DQT, chrominance DQT (for 3
components), SOF0, SOS.  The `ValueError` guards of the source become
`none`. -/
def generate_jpeg_headers (width height num_components : ℕ) : Option (List ℕ) :=
  if 1 ≤ width ∧ width ≤ 65535 ∧ 1 ≤ height ∧ height ≤ 65535 ∧
      (num_components = 1 ∨ num_components = 3) then
    some (SOI ++ generate_dqt_segment 0 std_luminance_qt ++
      (if num_components = 3 then generate_dqt_segment 1 std_chrominance_qt
       else []) ++
      generate_sof0_segment width height num_components ++
      generate_sos_segment num_components)
  else none

/-- The precomputed header of `WifiUavVideoProtocolAdapter.__init__` for
the default 640×360, 3-component stream. -/
def wifi_hdr_640 : List ℕ :=
  (generate_jpeg_headers 640 360 3).getD []

/-- Reassembly and retry state of `WifiUavVideoProtocolAdapter`
(timestamps are outside the embedding). -/
structure WifiVideoState where
  current_fid : ℕ
  fragments : List (ℕ × List ℕ)
  frames_ok : ℕ
  frames_dropped : ℕ
  retry_cnt : ℕ
  had_retry : Bool
  retry_attempts : ℕ
  retry_successes : ℕ
  deriving DecidableEq

/-- Adapter construction: `_current_fid = 1`, empty fragment map, all
counters zero. -/
def wifi_video_init : WifiVideoState :=
  { current_fid := 1, fragments := [], frames_ok := 0, frames_dropped := 0,
    retry_cnt := 0, had_retry := false, retry_attempts := 0,
    retry_successes := 0 }

/-- Embedding of `WifiUavVideoProtocolAdapter.handle_payload`: drop invalid
datagrams; reset the per-frame retry counter; resynchronise on a frame
id change; store the fragment (`setdefault`); on the last-fragment
sentinel (byte 2 ≠ 0x38) concatenate all stored fragments in index
order between the synthesized header `hdr` and `EOI` and emit. -/
def handle_payload (hdr : List ℕ) (s : WifiVideoState) (payload : List ℕ) :
    WifiVideoState × Option VideoFrame :=
  if payload.length < 56 ∨ payload.getD 1 0 ≠ 0x01 then (s, none)
  else
    let s1 := { s with retry_cnt := 0 }
    let frame_id := payload.getD 16 0 + 256 * payload.getD 17 0
    let s2 := if frame_id ≠ s1.current_fid then
        { s1 with frames_dropped := s1.frames_dropped + 1, fragments := [],
                  current_fid := frame_id }
      else s1
    let frag_id := payload.getD 32 0 + 256 * payload.getD 33 0
    let s3 := { s2 with
      fragments := dictSetdefault s2.fragments frag_id (payload.drop 56) }
    if payload.getD 2 0 = 0x38 then (s3, none)
    else
      let ordered := (sortKeys (s3.fragments.map Prod.fst)).map (dictGet s3.fragments)
      let jpeg := hdr ++ ordered.flatten ++ EOI
      let s4 := { s3 with frames_ok := s3.frames_ok + 1 }
      let s5 := if s4.had_retry then
          { s4 with retry_successes := s4.retry_successes + 1, had_retry := false }
        else s4
      ({ s5 with fragments := [], current_fid := (frame_id + 1) &&& 0xFFFF },
       some { frame_id := some frame_id, data := jpeg })

/-- One firing of the body of `_watchdog_loop` past its timeout guard
(`MAX_RETRIES = 3`): either retry the current frame or drop it and
advance. -/
def watchdog_fire (s : WifiVideoState) : WifiVideoState :=
  if s.retry_cnt < 3 then
    { s with retry_cnt := s.retry_cnt + 1,
             retry_attempts := s.retry_attempts + 1,
             had_retry := true }
  else
    { s with frames_dropped := s.frames_dropped + 1, fragments := [],
             retry_cnt := 0, current_fid := (s.current_fid + 1) &&& 0xFFFF,
             had_retry := false }

inductive WifiVideoEvent
  | ingest (payload : List ℕ)
  | watchdog

/-- The step relation of the family B video adapter: a received datagram
or a watchdog firing. -/
def wifi_video_step (hdr : List ℕ) (s : WifiVideoState) :
    WifiVideoEvent → WifiVideoState
  | .ingest p => (handle_payload hdr s p).1
  | .watchdog => watchdog_fire s

def wifi_video_run (hdr : List ℕ) (s : WifiVideoState)
    (es : List WifiVideoEvent) : WifiVideoState :=
  es.foldl (wifi_video_step hdr) s

/-- A continuation video datagram for frame 1, fragment 0 (byte 1 =
0x01, byte 2 = 0x38, frame counter 1 at bytes 16-17, fragment counter 0
at bytes 32-33, 56 bytes long). -/
def c10_payload : List ℕ :=
  [0, 1, 0x38] ++ List.replicate 13 0 ++ [1, 0] ++ List.replicate 14 0 ++
    [0, 0] ++ List.replicate 22 0

/-- A last-fragment video datagram for frame 1 carrying fragment index 1
(byte 2 = 0x39 ≠ 0x38) while fragment 0 was never received. -/
def c3_payload : List ℕ :=
  [0, 1, 0x39] ++ List.replicate 13 0 ++ [1, 0] ++ List.replicate 14 0 ++
    [1, 0] ++ List.replicate 22 0

/-! ## RC transmit paths (`send_control_packet` of families B and C)

The socket call is outside a shallow embedding, so the outcome of
`sock.sendto` is a parameter: either it returns, or it raises `OSError`
(for instance `EBADF` while the shared family B socket is swapped).
The embedded function returns `Except` — `.error` would mean the
exception propagates out of `send_control_packet`; the source wraps the
call in `try/except OSError: return`, so no branch produces `.error`.
The result carries whether the packet was transmitted and the updated
diagnostic packet counter. -/

inductive PySendResult
  | ok
  | oserr

/-- Embedding of `WifiUavRcProtocolAdapter.send_control_packet`: on `OSError` the
method returns silently; on success the debug counter advances when
debugging is on. -/
def wifiuav_send_control_packet (debug : Bool) (pkt_counter : ℕ)
    (outcome : PySendResult) : Except Unit (Bool × ℕ) :=
  match outcome with
  | .oserr => .ok (false, pkt_counter)
  | .ok => .ok (true, if debug then pkt_counter + 1 else pkt_counter)

/-- Embedding of `CooingdvRcProtocolAdapter.send_control_packet`: same shape. -/
def cooingdv_send_control_packet (debug : Bool) (pkt_counter : ℕ)
    (outcome : PySendResult) : Except Unit (Bool × ℕ) :=
  match outcome with
  | .oserr => .ok (false, pkt_counter)
  | .ok => .ok (true, if debug then pkt_counter + 1 else pkt_counter)

/-- The adapter-state iteration: counters after `n` calls of
`build_control_packet` starting from a fresh adapter. -/
def wifiuav_adapter_iter : ℕ → WifiUavAdapter
  | 0 => wifiuav_adapter_init
  | n + 1 =>
      (wifiuav_build_control_packet (wifiuav_adapter_iter n)
        (wifiuav_init 0 0 0 0)).2.1

/-! ## Properties -/
theorem and_255_eq_mod (n : ℕ) : n &&& 255 = n % 256 := by
  have h : (255 : ℕ) = 2 ^ 8 - 1 := by norm_num
  rw [h, Nat.and_pow_two_sub_one_eq_mod]

theorem and_65535_eq_mod (n : ℕ) : n &&& 65535 = n % 65536 := by
  have h : (65535 : ℕ) = 2 ^ 16 - 1 := by norm_num
  rw [h, Nat.and_pow_two_sub_one_eq_mod]

theorem and_255_of_lt {n : ℕ} (h : n < 256) : n &&& 255 = n := by
  rw [and_255_eq_mod, Nat.mod_eq_of_lt h]

theorem toByte_lt (n : ℤ) : toByte n < 256 := by
  have h := Int.emod_lt_of_pos n (by norm_num : (0:ℤ) < 256)
  have h0 : 0 ≤ n % 256 := Int.emod_nonneg n (by norm_num)
  unfold toByte
  omega

theorem xorBytes_lt (l : List ℕ) (h : ∀ b ∈ l, b < 256) : xorBytes l < 256 := by
  unfold xorBytes
  have general : ∀ (l : List ℕ) (a : ℕ), a < 256 → (∀ b ∈ l, b < 256) →
      l.foldl Nat.xor a < 256 := by
    intro l
    induction l with
    | nil => intro a ha _; simpa using ha
    | cons x xs ih =>
      intro a ha hmem
      have hx : x < 256 := hmem x (by simp)
      have hxor : a ^^^ x < 256 := by
        have := Nat.xor_lt_two_pow (n := 8) (by simpa using ha) (by simpa using hx)
        simpa using this
      exact ih (a ^^^ x) hxor (fun b hb => hmem b (by simp [hb]))
  exact general l 0 (by norm_num) h

theorem DQ.put_items_of_lt {α : Type} (c : ℕ) (q : DQ α) (x : α)
    (h : q.items.length < c) : (DQ.put c q x).items = q.items ++ [x] := by
  unfold DQ.put
  rw [if_neg]
  omega

theorem DQ.put_items_of_full {α : Type} (c : ℕ) (q : DQ α) (x : α)
    (hc : 0 < c) (h : c ≤ q.items.length) :
    (DQ.put c q x).items = q.items.drop 1 ++ [x] := by
  unfold DQ.put
  rw [if_pos ⟨hc, h⟩]

theorem DQ.foldl_put_items {α : Type} (c : ℕ) (hc : 0 < c) :
    ∀ (xs : List α) (q : DQ α), q.items.length ≤ c →
      (xs.foldl (DQ.put c) q).items =
        (q.items ++ xs).drop (q.items.length + xs.length - c) := by
  intro xs
  induction xs with
  | nil =>
    intro q hq
    simp only [List.foldl_nil, List.append_nil, List.length_nil, Nat.add_zero]
    have : q.items.length - c = 0 := by omega
    rw [this, List.drop_zero]
  | cons x xs ih =>
    intro q hq
    rw [List.foldl_cons]
    rcases lt_or_eq_of_le hq with hlt | heq
    · have hput : (DQ.put c q x).items = q.items ++ [x] :=
        DQ.put_items_of_lt c q x hlt
      have hlen : (DQ.put c q x).items.length ≤ c := by
        rw [hput]; simp; omega
      rw [ih (DQ.put c q x) hlen, hput]
      simp only [List.length_append, List.length_cons, List.length_nil,
        List.append_assoc, List.singleton_append]
      congr 1
      omega
    · -- queue exactly full: the oldest element is dropped first
      have hfull : (DQ.put c q x).items = q.items.drop 1 ++ [x] :=
        DQ.put_items_of_full c q x hc (le_of_eq heq.symm)
      have hne : q.items ≠ [] := by
        intro hnil
        rw [hnil] at heq
        simp at heq
        omega
      obtain ⟨a, t, hat⟩ := List.exists_cons_of_ne_nil hne
      have hc' : t.length + 1 = c := by
        rw [hat] at heq; simpa using heq
      have hlen : (DQ.put c q x).items.length ≤ c := by
        rw [hfull, hat]; simp; omega
      rw [ih (DQ.put c q x) hlen, hfull, hat]
      simp only [List.drop_one, List.tail_cons, List.length_append,
        List.length_cons, List.length_nil, List.append_assoc,
        List.singleton_append, List.cons_append, List.nil_append]
      have e1 : t.length + (0 + 1) + xs.length - c = xs.length := by omega
      have e2 : t.length + (0 + 1) + xs.length - c = xs.length := by omega
      have e3 : t.length + 1 + (xs.length + 1) - c = xs.length + 1 := by omega
      have e4 : (t ++ x :: xs).drop (t.length + (0 + 1) + xs.length - c) =
          (t ++ x :: xs).drop xs.length := by rw [e1]
      rw [e4]
      have e5 : (a :: (t ++ x :: xs)).drop (t.length + 1 + (xs.length + 1) - c) =
          (a :: (t ++ x :: xs)).drop (xs.length + 1) := by rw [e3]
      rw [e5, List.drop_succ_cons]

/-- C5: the drop-oldest queue with capacity `c > 0`.  `put` is a total
function (it never blocks and has no "queue full" failure branch); when
the queue already holds `c` items a single `put` removes exactly the
oldest item and then enqueues the new one; and after `k ≥ c` puts of
`x1..xk` into an initially empty queue the queue holds exactly `c`
items, namely `x(k-c+1)..xk` in insertion (dequeue) order. -/
theorem C5_drop_oldest_queue {α : Type} :
    (∀ (c : ℕ) (q : DQ α) (x : α), 0 < c → q.items.length = c →
      (DQ.put c q x).items = q.items.drop 1 ++ [x]) ∧
    (∀ (c : ℕ) (xs : List α), 0 < c → c ≤ xs.length →
      (xs.foldl (DQ.put c) (DQ.empty α)).items = xs.drop (xs.length - c) ∧
      (xs.foldl (DQ.put c) (DQ.empty α)).items.length = c) := by
  constructor
  · intro c q x hc hl
    exact DQ.put_items_of_full c q x hc (le_of_eq hl.symm)
  · intro c xs hc hlen
    have h := DQ.foldl_put_items c hc xs (DQ.empty α) (by simp [DQ.empty])
    have hempty : (DQ.empty α).items = [] := rfl
    rw [hempty] at h
    simp only [List.nil_append, List.length_nil, Nat.zero_add] at h
    refine ⟨h, ?_⟩
    rw [h, List.length_drop]
    omega

/-- Witness for C5 with capacity 2 and three insertions. -/
theorem C5_drop_oldest_queue_witness :
    (0 < 2 ∧ 2 ≤ [10, 20, 30].length) ∧
    ([10, 20, 30].foldl (DQ.put 2) (DQ.empty ℕ)).items = [20, 30] := by
  refine ⟨⟨by norm_num, by norm_num⟩, ?_⟩
  have h := (@C5_drop_oldest_queue ℕ).2 2 [10, 20, 30] (by norm_num) (by norm_num)
  exact h.1.trans (by decide)

theorem s2x_flags6_lt (m : S2xModel) : s2x_flags6 m < 256 := by
  unfold s2x_flags6
  cases m.takeoff_flag <;> cases m.land_flag <;> cases m.stop_flag <;> decide

theorem s2x_flags7_lt (m : S2xModel) (h : m.record_state ≤ 1) :
    s2x_flags7 m < 256 := by
  unfold s2x_flags7
  rcases Nat.le_one_iff_eq_zero_or_eq_one.mp h with h0 | h1
  · rw [h0]; decide
  · rw [h1]; decide

theorem s2x_checksum_lt (m : S2xModel) (h : m.record_state ≤ 1) :
    xorBytes [s2x_axis_byte m m.roll, s2x_axis_byte m m.pitch,
      s2x_axis_byte m m.throttle, s2x_axis_byte m m.yaw,
      s2x_flags6 m, s2x_flags7 m, 0, 0, 0, 0, 0, 0, 0, 0, 0, 0] < 256 := by
  apply xorBytes_lt
  intro b hb
  simp only [List.mem_cons, List.not_mem_nil, or_false] at hb
  rcases hb with rfl | rfl | rfl | rfl | rfl | rfl | rfl | rfl | rfl | rfl |
    rfl | rfl | rfl | rfl | rfl | rfl
  · exact toByte_lt _
  · exact toByte_lt _
  · exact toByte_lt _
  · exact toByte_lt _
  · exact s2x_flags6_lt m
  · exact s2x_flags7_lt m h
  all_goals norm_num

/-- C2: every packet built by the family A control encoder starts with
0x66, ends with 0x99 and carries at byte 18 the XOR of bytes 2 through
17; on the freshly constructed model (axes at mid = 128, speed = 20,
normal-profile rates) with `takeoff()` set, the first built packet is
exactly `66 14 80 80 80 80 01 0A 00×10 0B 99` and the takeoff flag is
`False` after the build. -/
theorem C2_familyA_packet_framing (m : S2xModel) (hrec : m.record_state ≤ 1) :
    ((s2x_build_control_packet m).1.length = 20 ∧
     (s2x_build_control_packet m).1.get? 0 = some 0x66 ∧
     (s2x_build_control_packet m).1.get? 19 = some 0x99 ∧
     (s2x_build_control_packet m).1.get? 18 =
       some (xorBytes (((s2x_build_control_packet m).1.drop 2).take 16))) ∧
    (s2x_build_control_packet (s2x_takeoff (s2x_init 108 180 (1/2) (14/5)))).1 =
      [0x66, 0x14, 0x80, 0x80, 0x80, 0x80, 0x01, 0x0a,
       0x00, 0x00, 0x00, 0x00, 0x00, 0x00, 0x00, 0x00, 0x00, 0x00, 0x0b, 0x99] ∧
    (s2x_build_control_packet (s2x_takeoff (s2x_init 108 180 (1/2) (14/5)))).2.takeoff_flag
      = false := by
  refine ⟨⟨rfl, rfl, rfl, ?_⟩, ?_, rfl⟩
  · show some (xorBytes [s2x_axis_byte m m.roll, s2x_axis_byte m m.pitch,
        s2x_axis_byte m m.throttle, s2x_axis_byte m m.yaw,
        s2x_flags6 m, s2x_flags7 m, 0, 0, 0, 0, 0, 0, 0, 0, 0, 0] &&& 0xFF) = _
    rw [and_255_of_lt (s2x_checksum_lt m hrec)]
    rfl
  · norm_num [s2x_build_control_packet, s2x_axis_byte, s2x_takeoff, s2x_init,
      remap_to_full_range, pyInt, toByte, s2x_flags6, s2x_flags7, xorBytes]
    decide

/-- Witness for C2 at the freshly constructed model. -/
theorem C2_familyA_packet_framing_witness :
    (s2x_init 108 180 (1/2) (14/5)).record_state ≤ 1 ∧
    (s2x_build_control_packet (s2x_init 108 180 (1/2) (14/5))).1.get? 0 = some 0x66 := by
  exact ⟨by decide, (C2_familyA_packet_framing (s2x_init 108 180 (1/2) (14/5))
    (by decide)).1.2.1⟩

/-- C4 counterexample: the family B encoder does not clamp.  With the
roll axis at 300.0 the axis byte written at offset 20 is
`int(300) & 0xFF = 44`, not `max(0, min(255, 300)) = 255`. -/
theorem C4_counterexample_no_clamp :
    ((wifiuav_build_control_packet wifiuav_adapter_init
        { wifiuav_init 0 0 0 0 with roll := 300 }).1.get? 20 = some 44) ∧
    Int.toNat (max 0 (min 255 (pyInt (300 : ℚ)))) = 255 ∧ (44 : ℕ) ≠ 255 := by
  refine ⟨?_, ?_, by decide⟩
  · show some (toByte (pyInt (300 : ℚ))) = some 44
    norm_num [pyInt, toByte]
    decide
  · norm_num [pyInt]
    decide

theorem cooingdv_clamp_axis_eq (v : ℚ) :
    cooingdv_clamp_axis v = Int.toNat (max 0 (min 255 (pyInt v))) := by
  unfold cooingdv_clamp_axis toByte
  congr 1
  apply Int.emod_eq_of_lt
  · exact le_max_left 0 _
  · have h : min 255 (pyInt v) ≤ 255 := min_le_left _ _
    omega

theorem cooingdv_clamp_axis_le (v : ℚ) : cooingdv_clamp_axis v ≤ 255 := by
  rw [cooingdv_clamp_axis_eq]
  have h : min 255 (pyInt v) ≤ 255 := min_le_left _ _
  omega

/-- C4 amended: only the family C encoder clamps its axis bytes to
`[0, 255]` (`max(0, min(255, int(v)))`); the family A and family B
encoders truncate to an integer and reduce modulo 256 (family A after
remapping the stick range to 0..255), so out-of-range axis values wrap
instead of saturating.  All axis bytes are nevertheless below 256. -/
theorem C4_amended_axis_byte_encoding (mA : S2xModel) (a : WifiUavAdapter)
    (mB : WifiUavModel) (mC : CooingdvModel) :
    ((s2x_build_control_packet mA).1.get? 2 =
        some (Int.toNat (pyInt (remap_to_full_range mA mA.roll) % 256)) ∧
     (s2x_build_control_packet mA).1.get? 3 =
        some (Int.toNat (pyInt (remap_to_full_range mA mA.pitch) % 256)) ∧
     (s2x_build_control_packet mA).1.get? 4 =
        some (Int.toNat (pyInt (remap_to_full_range mA mA.throttle) % 256)) ∧
     (s2x_build_control_packet mA).1.get? 5 =
        some (Int.toNat (pyInt (remap_to_full_range mA mA.yaw) % 256)) ∧
     s2x_axis_byte mA mA.roll < 256) ∧
    ((wifiuav_build_control_packet a mB).1.get? 20 =
        some (Int.toNat (pyInt mB.roll % 256)) ∧
     (wifiuav_build_control_packet a mB).1.get? 21 =
        some (Int.toNat (pyInt mB.pitch % 256)) ∧
     (wifiuav_build_control_packet a mB).1.get? 22 =
        some (Int.toNat (pyInt mB.throttle % 256)) ∧
     (wifiuav_build_control_packet a mB).1.get? 23 =
        some (Int.toNat (pyInt mB.yaw % 256)) ∧
     toByte (pyInt mB.roll) < 256) ∧
    ((cooingdv_build_control_packet mC).1.get? 2 =
        some (Int.toNat (max 0 (min 255 (pyInt mC.roll)))) ∧
     (cooingdv_build_control_packet mC).1.get? 3 =
        some (Int.toNat (max 0 (min 255 (pyInt mC.pitch)))) ∧
     (cooingdv_build_control_packet mC).1.get? 4 =
        some (Int.toNat (max 0 (min 255 (pyInt mC.throttle)))) ∧
     (cooingdv_build_control_packet mC).1.get? 5 =
        some (Int.toNat (max 0 (min 255 (pyInt mC.yaw)))) ∧
     cooingdv_clamp_axis mC.roll ≤ 255) := by
  refine ⟨⟨rfl, rfl, rfl, rfl, toByte_lt _⟩,
          ⟨rfl, rfl, rfl, rfl, toByte_lt _⟩,
          ⟨?_, ?_, ?_, ?_, cooingdv_clamp_axis_le _⟩⟩ <;>
    · show some (cooingdv_clamp_axis _) = _
      rw [cooingdv_clamp_axis_eq]

/-- C6 counterexample: the family A encoder does not clear the model's
calibration flag: from a state with `calibration_flag = True` the flag
is still `True` after the packet is built. -/
theorem C6_counterexample_calibration_not_cleared :
    (s2x_build_control_packet
        { s2x_init 108 180 (1/2) (14/5) with calibration_flag := true
        }).2.calibration_flag = true := rfl

/-- C6 amended: the family B and C encoders clear all their non-toggle
one-shot flags (takeoff, land, stop, calibrate, and flip for family C);
the family A encoder clears takeoff, land and stop — the only one-shot
flags it encodes — and leaves the model's calibration flag untouched.
In every family the headless flag and all other model fields (axes,
response-rate parameters, and for family A speed and record state) are
unchanged by the build. -/
theorem C6_amended_one_shot_flag_clearing (mA : S2xModel) (a : WifiUavAdapter)
    (mB : WifiUavModel) (mC : CooingdvModel) :
    ((s2x_build_control_packet mA).2.takeoff_flag = false ∧
     (s2x_build_control_packet mA).2.land_flag = false ∧
     (s2x_build_control_packet mA).2.stop_flag = false ∧
     (s2x_build_control_packet mA).2.headless_flag = mA.headless_flag ∧
     (s2x_build_control_packet mA).2.calibration_flag = mA.calibration_flag ∧
     (s2x_build_control_packet mA).2.throttle = mA.throttle ∧
     (s2x_build_control_packet mA).2.yaw = mA.yaw ∧
     (s2x_build_control_packet mA).2.pitch = mA.pitch ∧
     (s2x_build_control_packet mA).2.roll = mA.roll ∧
     (s2x_build_control_packet mA).2.speed = mA.speed ∧
     (s2x_build_control_packet mA).2.record_state = mA.record_state ∧
     (s2x_build_control_packet mA).2.accel_rate = mA.accel_rate ∧
     (s2x_build_control_packet mA).2.decel_rate = mA.decel_rate ∧
     (s2x_build_control_packet mA).2.expo_factor = mA.expo_factor ∧
     (s2x_build_control_packet mA).2.immediate_response = mA.immediate_response) ∧
    ((wifiuav_build_control_packet a mB).2.2.takeoff_flag = false ∧
     (wifiuav_build_control_packet a mB).2.2.land_flag = false ∧
     (wifiuav_build_control_packet a mB).2.2.stop_flag = false ∧
     (wifiuav_build_control_packet a mB).2.2.calibration_flag = false ∧
     (wifiuav_build_control_packet a mB).2.2.headless_flag = mB.headless_flag ∧
     (wifiuav_build_control_packet a mB).2.2.throttle = mB.throttle ∧
     (wifiuav_build_control_packet a mB).2.2.yaw = mB.yaw ∧
     (wifiuav_build_control_packet a mB).2.2.pitch = mB.pitch ∧
     (wifiuav_build_control_packet a mB).2.2.roll = mB.roll ∧
     (wifiuav_build_control_packet a mB).2.2.accel_rate = mB.accel_rate ∧
     (wifiuav_build_control_packet a mB).2.2.decel_rate = mB.decel_rate) ∧
    ((cooingdv_build_control_packet mC).2.takeoff_flag = false ∧
     (cooingdv_build_control_packet mC).2.land_flag = false ∧
     (cooingdv_build_control_packet mC).2.stop_flag = false ∧
     (cooingdv_build_control_packet mC).2.flip_flag = false ∧
     (cooingdv_build_control_packet mC).2.calibration_flag = false ∧
     (cooingdv_build_control_packet mC).2.headless_flag = mC.headless_flag ∧
     (cooingdv_build_control_packet mC).2.throttle = mC.throttle ∧
     (cooingdv_build_control_packet mC).2.yaw = mC.yaw ∧
     (cooingdv_build_control_packet mC).2.pitch = mC.pitch ∧
     (cooingdv_build_control_packet mC).2.roll = mC.roll ∧
     (cooingdv_build_control_packet mC).2.accel_rate = mC.accel_rate ∧
     (cooingdv_build_control_packet mC).2.decel_rate = mC.decel_rate) := by
  repeat' apply And.intro
  all_goals rfl

set_option maxHeartbeats 2000000 in
/-- C7: the family B rolling counters start at `(0, 1, 2)`; every call
of `build_control_packet` serializes the current counters little-endian
(at offsets 12, 88 and 108 of the packet) and advances each by exactly
one modulo 2^16; hence after `n` builds the counters are
`(n, n+1, n+2) mod 2^16`, so the n-th packet carries those values. -/
theorem C7_familyB_rolling_counters :
    (∀ (a : WifiUavAdapter) (m : WifiUavModel),
      (wifiuav_build_control_packet a m).1.get? 12 = some (a.ctr1 % 256) ∧
      (wifiuav_build_control_packet a m).1.get? 13 = some (a.ctr1 / 256 % 256) ∧
      (wifiuav_build_control_packet a m).1.get? 88 = some (a.ctr2 % 256) ∧
      (wifiuav_build_control_packet a m).1.get? 89 = some (a.ctr2 / 256 % 256) ∧
      (wifiuav_build_control_packet a m).1.get? 108 = some (a.ctr3 % 256) ∧
      (wifiuav_build_control_packet a m).1.get? 109 = some (a.ctr3 / 256 % 256) ∧
      (wifiuav_build_control_packet a m).2.1.ctr1 = (a.ctr1 + 1) % 65536 ∧
      (wifiuav_build_control_packet a m).2.1.ctr2 = (a.ctr2 + 1) % 65536 ∧
      (wifiuav_build_control_packet a m).2.1.ctr3 = (a.ctr3 + 1) % 65536) ∧
    (∀ n : ℕ,
      (wifiuav_adapter_iter n).ctr1 = n % 65536 ∧
      (wifiuav_adapter_iter n).ctr2 = (n + 1) % 65536 ∧
      (wifiuav_adapter_iter n).ctr3 = (n + 2) % 65536) := by
  have hstep : ∀ (a : WifiUavAdapter) (m : WifiUavModel),
      (wifiuav_build_control_packet a m).2.1.ctr1 = (a.ctr1 + 1) % 65536 ∧
      (wifiuav_build_control_packet a m).2.1.ctr2 = (a.ctr2 + 1) % 65536 ∧
      (wifiuav_build_control_packet a m).2.1.ctr3 = (a.ctr3 + 1) % 65536 := by
    intro a m
    refine ⟨?_, ?_, ?_⟩ <;> exact and_65535_eq_mod _
  constructor
  · intro a m
    obtain ⟨h1, h2, h3⟩ := hstep a m
    exact ⟨rfl, rfl, rfl, rfl, rfl, rfl, h1, h2, h3⟩
  · intro n
    induction n with
    | zero => exact ⟨rfl, rfl, rfl⟩
    | succ k ih =>
      obtain ⟨h1, h2, h3⟩ := ih
      obtain ⟨g1, g2, g3⟩ :=
        hstep (wifiuav_adapter_iter k) (wifiuav_init 0 0 0 0)
      refine ⟨?_, ?_, ?_⟩
      · show (wifiuav_build_control_packet (wifiuav_adapter_iter k)
            (wifiuav_init 0 0 0 0)).2.1.ctr1 = (k + 1) % 65536
        rw [g1, h1]; omega
      · show (wifiuav_build_control_packet (wifiuav_adapter_iter k)
            (wifiuav_init 0 0 0 0)).2.1.ctr2 = (k + 1 + 1) % 65536
        rw [g2, h2]; omega
      · show (wifiuav_build_control_packet (wifiuav_adapter_iter k)
            (wifiuav_init 0 0 0 0)).2.1.ctr3 = (k + 1 + 2) % 65536
        rw [g3, h3]; omega

theorem clamp_up_bounds (mn mx cur1 acc : ℚ) (h : mn ≤ mx) (hc : mn ≤ cur1)
    (ha : 0 ≤ acc) :
    mn ≤ min mx (cur1 + acc) ∧ min mx (cur1 + acc) ≤ mx :=
  ⟨le_min h (by linarith), min_le_left _ _⟩

theorem clamp_down_bounds (mn mx cur1 acc : ℚ) (h : mn ≤ mx) (hc : cur1 ≤ mx)
    (ha : 0 ≤ acc) :
    mn ≤ max mn (cur1 - acc) ∧ max mn (cur1 - acc) ≤ mx :=
  ⟨le_max_left _ _, max_le h (by linarith)⟩

theorem s2x_update_axis_bounds (m : S2xModel) (boost : Bool) (dt dir ld cur : ℚ)
    (hmn : m.min_control_value < m.center_value)
    (hmx : m.center_value < m.max_control_value)
    (hacc : 0 ≤ m.accel_rate) (hdec : 0 ≤ m.decel_rate)
    (hexpo : 0 ≤ m.expo_factor) (himm : 0 ≤ m.immediate_response)
    (hdt : 0 ≤ dt)
    (hlo : m.min_control_value ≤ cur) (hhi : cur ≤ m.max_control_value) :
    m.min_control_value ≤ s2x_update_axis m boost dt dir ld cur ∧
    s2x_update_axis m boost dt dir ld cur ≤ m.max_control_value := by
  have hmnmx : m.min_control_value ≤ m.max_control_value := by linarith
  unfold s2x_update_axis
  dsimp only
  split_ifs with h1 hb h2 hb2 h3 h4
  · -- dir > 0 with boost
    have hj1 : min (m.max_control_value - cur) m.immediate_response ≤
        m.max_control_value - cur := min_le_left _ _
    have hj0 : 0 ≤ min (m.max_control_value - cur) m.immediate_response :=
      le_min (by linarith) himm
    refine clamp_up_bounds _ _ _ _ hmnmx (by linarith) ?_
    have hdiv : 0 ≤ m.expo_factor *
        (m.max_control_value -
          (cur + min (m.max_control_value - cur) m.immediate_response)) /
        (m.max_control_value - m.center_value) :=
      div_nonneg (mul_nonneg hexpo (by linarith)) (by linarith)
    exact mul_nonneg (mul_nonneg hacc hdt) (by linarith)
  · -- dir > 0 without boost
    refine clamp_up_bounds _ _ _ _ hmnmx hlo ?_
    have hdiv : 0 ≤ m.expo_factor * (m.max_control_value - cur) /
        (m.max_control_value - m.center_value) :=
      div_nonneg (mul_nonneg hexpo (by linarith)) (by linarith)
    exact mul_nonneg (mul_nonneg hacc hdt) (by linarith)
  · -- dir < 0 with boost
    have hj1 : min (cur - m.min_control_value) m.immediate_response ≤
        cur - m.min_control_value := min_le_left _ _
    have hj0 : 0 ≤ min (cur - m.min_control_value) m.immediate_response :=
      le_min (by linarith) himm
    refine clamp_down_bounds _ _ _ _ hmnmx (by linarith) ?_
    have hdiv : 0 ≤ m.expo_factor *
        ((cur - min (cur - m.min_control_value) m.immediate_response) -
          m.min_control_value) /
        (m.center_value - m.min_control_value) :=
      div_nonneg (mul_nonneg hexpo (by linarith)) (by linarith)
    exact mul_nonneg (mul_nonneg hacc hdt) (by linarith)
  · -- dir < 0 without boost
    refine clamp_down_bounds _ _ _ _ hmnmx hhi ?_
    have hdiv : 0 ≤ m.expo_factor * (cur - m.min_control_value) /
        (m.center_value - m.min_control_value) :=
      div_nonneg (mul_nonneg hexpo (by linarith)) (by linarith)
    exact mul_nonneg (mul_nonneg hacc hdt) (by linarith)
  · -- dir = 0, above centre
    constructor
    · have : m.min_control_value ≤ m.center_value := by linarith
      exact le_trans this (le_max_left _ _)
    · have hdiv : 0 ≤ (1/2 : ℚ) * (cur - m.center_value) /
          (m.max_control_value - m.center_value) :=
        div_nonneg (mul_nonneg (by norm_num) (by linarith)) (by linarith)
      have hdecel : 0 ≤ m.decel_rate * dt *
          (1 + (1/2) * (cur - m.center_value) /
            (m.max_control_value - m.center_value)) :=
        mul_nonneg (mul_nonneg hdec hdt) (by linarith)
      exact max_le (by linarith) (by linarith)
  · -- dir = 0, below centre
    constructor
    · have hdiv : 0 ≤ (1/2 : ℚ) * (m.center_value - cur) /
          (m.center_value - m.min_control_value) :=
        div_nonneg (mul_nonneg (by norm_num) (by linarith)) (by linarith)
      have hdecel : 0 ≤ m.decel_rate * dt *
          (1 + (1/2) * (m.center_value - cur) /
            (m.center_value - m.min_control_value)) :=
        mul_nonneg (mul_nonneg hdec hdt) (by linarith)
      exact le_min (by linarith) (by linarith)
    · have : m.center_value ≤ m.max_control_value := by linarith
      exact le_trans (min_le_left _ _) this
  · -- dir = 0, exactly at centre
    exact ⟨hlo, hhi⟩

theorem direct_expo_abs_le (expo v : ℝ) (hexpo : 0 ≤ expo)
    (hv1 : -1 ≤ v) (hv2 : v ≤ 1) :
    -1 ≤ direct_expo expo v ∧ direct_expo expo v ≤ 1 := by
  unfold direct_expo
  split_ifs with h0 hs
  · exact ⟨hv1, hv2⟩
  · have habs : |v| ≤ 1 := abs_le.mpr ⟨hv1, hv2⟩
    have h1 : |v| ^ (1 + expo) ≤ 1 :=
      Real.rpow_le_one (abs_nonneg v) habs (by linarith)
    have h2 : 0 ≤ |v| ^ (1 + expo) := Real.rpow_nonneg (abs_nonneg v) _
    constructor <;> nlinarith
  · have habs : |v| ≤ 1 := abs_le.mpr ⟨hv1, hv2⟩
    have h1 : |v| ^ (1 + expo) ≤ 1 :=
      Real.rpow_le_one (abs_nonneg v) habs (by linarith)
    have h2 : 0 ≤ |v| ^ (1 + expo) := Real.rpow_nonneg (abs_nonneg v) _
    constructor <;> nlinarith

theorem scale_normalised_bounds (mn md mx v : ℝ) (h1 : mn ≤ md) (h2 : md ≤ mx)
    (hv1 : -1 ≤ v) (hv2 : v ≤ 1) :
    mn ≤ scale_normalised mn md mx v ∧ scale_normalised mn md mx v ≤ mx := by
  unfold scale_normalised
  split_ifs with h0
  · constructor <;> nlinarith
  · constructor <;> nlinarith

/-- C1: at construction every axis of the stick model equals the range
midpoint; and for any state whose axes are inside
`[min_control_value, max_control_value]`, any `update(dt, axes)` with
`dt ≥ 0` keeps all four raw axis values inside that range — under the
incremental strategy (`update_axes`, for arbitrary direction inputs, so
in particular for inputs in `[-1, +1]`), and under the direct strategy,
whose assigned value stays in range for every input `v ∈ [-1, +1]`. -/
theorem C1_stick_axes_in_range :
    ((s2x_init 108 180 (1/2) (14/5)).throttle = (s2x_init 108 180 (1/2) (14/5)).center_value ∧
     (s2x_init 108 180 (1/2) (14/5)).yaw = (s2x_init 108 180 (1/2) (14/5)).center_value ∧
     (s2x_init 108 180 (1/2) (14/5)).pitch = (s2x_init 108 180 (1/2) (14/5)).center_value ∧
     (s2x_init 108 180 (1/2) (14/5)).roll = (s2x_init 108 180 (1/2) (14/5)).center_value ∧
     (wifiuav_init 144 288 (1/2) (18/5)).throttle = 128 ∧
     (cooingdv_init 144 288 (1/2) 3).throttle = 128) ∧
    (∀ (m : S2xModel) (dt t y p r : ℚ),
      m.min_control_value < m.center_value →
      m.center_value < m.max_control_value →
      0 ≤ m.accel_rate → 0 ≤ m.decel_rate →
      0 ≤ m.expo_factor → 0 ≤ m.immediate_response →
      0 ≤ dt →
      m.min_control_value ≤ m.throttle → m.throttle ≤ m.max_control_value →
      m.min_control_value ≤ m.yaw → m.yaw ≤ m.max_control_value →
      m.min_control_value ≤ m.pitch → m.pitch ≤ m.max_control_value →
      m.min_control_value ≤ m.roll → m.roll ≤ m.max_control_value →
      (m.min_control_value ≤ (s2x_update_axes m dt t y p r).throttle ∧
        (s2x_update_axes m dt t y p r).throttle ≤ m.max_control_value) ∧
      (m.min_control_value ≤ (s2x_update_axes m dt t y p r).yaw ∧
        (s2x_update_axes m dt t y p r).yaw ≤ m.max_control_value) ∧
      (m.min_control_value ≤ (s2x_update_axes m dt t y p r).pitch ∧
        (s2x_update_axes m dt t y p r).pitch ≤ m.max_control_value) ∧
      (m.min_control_value ≤ (s2x_update_axes m dt t y p r).roll ∧
        (s2x_update_axes m dt t y p r).roll ≤ m.max_control_value)) ∧
    (∀ mn md mx expo v : ℝ, mn ≤ md → md ≤ mx → 0 ≤ expo →
      -1 ≤ v → v ≤ 1 →
      mn ≤ direct_axis mn md mx expo v ∧ direct_axis mn md mx expo v ≤ mx) := by
  refine ⟨⟨rfl, rfl, rfl, rfl, rfl, rfl⟩, ?_, ?_⟩
  · intro m dt t y p r hmn hmx hacc hdec hexpo himm hdt
      ht1 ht2 hy1 hy2 hp1 hp2 hr1 hr2
    exact ⟨s2x_update_axis_bounds m false dt t m.last_throttle_dir m.throttle
        hmn hmx hacc hdec hexpo himm hdt ht1 ht2,
      s2x_update_axis_bounds m false dt y m.last_yaw_dir m.yaw
        hmn hmx hacc hdec hexpo himm hdt hy1 hy2,
      s2x_update_axis_bounds m true dt p m.last_pitch_dir m.pitch
        hmn hmx hacc hdec hexpo himm hdt hp1 hp2,
      s2x_update_axis_bounds m true dt r m.last_roll_dir m.roll
        hmn hmx hacc hdec hexpo himm hdt hr1 hr2⟩
  · intro mn md mx expo v h1 h2 hexpo hv1 hv2
    obtain ⟨he1, he2⟩ := direct_expo_abs_le expo v hexpo hv1 hv2
    exact scale_normalised_bounds mn md mx (direct_expo expo v) h1 h2 he1 he2

/-- Witness for C1: the S2x model, normal profile, one update step with
mixed direction inputs from the freshly constructed state. -/
theorem C1_stick_axes_in_range_witness :
    (60 : ℚ) ≤ (s2x_update_axes (s2x_init 108 180 (1/2) (14/5)) (1/10) 1 0 (-1) (1/2)).pitch ∧
    (s2x_update_axes (s2x_init 108 180 (1/2) (14/5)) (1/10) 1 0 (-1) (1/2)).pitch ≤ 200 := by
  have h := (C1_stick_axes_in_range.2.1 (s2x_init 108 180 (1/2) (14/5))
    (1/10) 1 0 (-1) (1/2)
    (by norm_num [s2x_init]) (by norm_num [s2x_init]) (by norm_num [s2x_init])
    (by norm_num [s2x_init]) (by norm_num [s2x_init]) (by norm_num [s2x_init])
    (by norm_num) (by norm_num [s2x_init]) (by norm_num [s2x_init])
    (by norm_num [s2x_init]) (by norm_num [s2x_init]) (by norm_num [s2x_init])
    (by norm_num [s2x_init]) (by norm_num [s2x_init]) (by norm_num [s2x_init])).2.2.1
  exact h

/-- C9: while the shared socket is closed or being swapped,
`sock.sendto` raises `OSError`; both the family B and the family C RC
adapters absorb it: `send_control_packet` returns normally (no
exception propagates), the packet of that tick is not transmitted, and
the adapter's diagnostic packet counter is unchanged. -/
theorem C9_send_errors_absorbed (debug : Bool) (cnt : ℕ) :
    wifiuav_send_control_packet debug cnt PySendResult.oserr =
      Except.ok (false, cnt) ∧
    cooingdv_send_control_packet debug cnt PySendResult.oserr =
      Except.ok (false, cnt) :=
  ⟨rfl, rfl⟩

theorem findFirst2_spec (a b : ℕ) :
    ∀ (l : List ℕ) (i : ℕ), findFirst2 a b l = some i →
      l.drop i = a :: b :: l.drop (i + 2) := by
  intro l
  induction l with
  | nil => intro i h; simp [findFirst2] at h
  | cons x l' ih =>
    intro i h
    cases l' with
    | nil => simp [findFirst2] at h
    | cons y rest =>
      rw [findFirst2] at h
      split_ifs at h with hxy
      · obtain ⟨rfl, rfl⟩ := hxy
        have : i = 0 := by
          have := Option.some.inj h
          omega
        subst this
        simp
      · obtain ⟨j, hj, hij⟩ := Option.map_eq_some'.mp h
        subst hij
        have hrec := ih j hj
        have e : j + 1 + 2 = (j + 2) + 1 := by omega
        rw [List.drop_succ_cons, e, List.drop_succ_cons]
        exact hrec

theorem findLast2_spec (a b : ℕ) :
    ∀ (l : List ℕ) (i : ℕ), findLast2 a b l = some i →
      l.drop i = a :: b :: l.drop (i + 2) := by
  intro l
  induction l with
  | nil => intro i h; simp [findLast2] at h
  | cons x l' ih =>
    intro i h
    cases l' with
    | nil => simp [findLast2] at h
    | cons y rest =>
      rw [findLast2] at h
      cases hrec : findLast2 a b (y :: rest) with
      | some j =>
        rw [hrec] at h
        have : i = j + 1 := by
          have := Option.some.inj h
          omega
        subst this
        have hj := ih j hrec
        have e : j + 1 + 2 = (j + 2) + 1 := by omega
        rw [List.drop_succ_cons, e, List.drop_succ_cons]
        exact hj
      | none =>
        rw [hrec] at h
        split_ifs at h with hxy
        · obtain ⟨rfl, rfl⟩ := hxy
          have : i = 0 := by
            have := Option.some.inj h
            omega
          subst this
          simp

theorem pyFind2_nonneg (a b : ℕ) (l : List ℕ) (h : 0 ≤ pyFind2 a b l) :
    findFirst2 a b l = some (pyFind2 a b l).toNat := by
  cases hf : findFirst2 a b l with
  | some i =>
    unfold pyFind2
    rw [hf]
    simp
  | none =>
    exfalso
    unfold pyFind2 at h
    rw [hf] at h
    norm_num at h

theorem pyRfind2_nonneg (a b : ℕ) (l : List ℕ) (h : 0 ≤ pyRfind2 a b l) :
    findLast2 a b l = some (pyRfind2 a b l).toNat := by
  cases hf : findLast2 a b l with
  | some i =>
    unfold pyRfind2
    rw [hf]
    simp
  | none =>
    exfalso
    unfold pyRfind2 at h
    rw [hf] at h
    norm_num at h

/-- The emitted family A byte range: given the SOI position `st` and the
EOI position `en` with `st < en`, the slice `data[st : en+2]` starts
with `FF D8` and ends with `FF D9`. -/
theorem s2x_slice_markers (data : List ℕ) (st en : ℕ)
    (hst : findFirst2 0xFF 0xD8 data = some st)
    (hen : findLast2 0xFF 0xD9 data = some en)
    (hlt : st < en) :
    ((data.drop st).take (en + 2 - st)).take 2 = [0xFF, 0xD8] ∧
    ∃ q, (data.drop st).take (en + 2 - st) = q ++ [0xFF, 0xD9] := by
  have h1 := findFirst2_spec 0xFF 0xD8 data st hst
  have h2 := findLast2_spec 0xFF 0xD9 data en hen
  have hsum : en + 2 - st = (en - st - 2) + 2 ∨ en + 2 - st = (en - st) + 2 := by
    right; omega
  have hdecomp : en + 2 - st = (en - st) + 2 := by omega
  constructor
  · rw [h1]
    have h2le : 2 ≤ en + 2 - st := by omega
    obtain ⟨k, hk⟩ := Nat.exists_eq_add_of_le h2le
    rw [hk]
    have : 2 + k = k + 2 := by omega
    rw [this, List.take_succ_cons, List.take_succ_cons]
    rfl
  · refine ⟨(data.drop st).take (en - st), ?_⟩
    rw [hdecomp, List.take_add]
    congr 1
    have hdd : (data.drop st).drop (en - st) = data.drop en := by
      rw [List.drop_drop]
      congr 1
      omega
    rw [hdd, h2]
    rfl

/-- C8: every emitted video frame starts with the JPEG SOI marker
`FF D8` and ends with the EOI marker `FF D9`.  Family A: every frame
returned by `_assemble_current` is the byte range from the first SOI to
just past the last EOI (SOI strictly before EOI is required).  Family B:
the synthesized header, which begins with SOI, is prepended and EOI is
appended to every assembled frame. -/
theorem C8_frames_have_SOI_EOI :
    (∀ (s : S2xVideoState) (f : VideoFrame) (s' : S2xVideoState),
      s2x_assemble_current s = (some f, s') →
      f.data.take 2 = [0xFF, 0xD8] ∧ ∃ q, f.data = q ++ [0xFF, 0xD9]) ∧
    (∀ (w h c : ℕ) (hdr : List ℕ) (s : WifiVideoState) (p : List ℕ)
        (f : VideoFrame) (s' : WifiVideoState),
      generate_jpeg_headers w h c = some hdr →
      handle_payload hdr s p = (s', some f) →
      f.data.take 2 = [0xFF, 0xD8] ∧ ∃ q, f.data = q ++ [0xFF, 0xD9]) := by
  constructor
  · intro s f s' heq
    unfold s2x_assemble_current at heq
    dsimp only at heq
    split_ifs at heq with h0 h1 h2
    · simp at heq
    · simp at heq
    · push_neg at h2
      obtain ⟨hst0, hen0, hlt⟩ := h2
      injection heq with hf hs
      have hf' := Option.some.inj hf
      subst hf'
      have hfind := pyFind2_nonneg 0xFF 0xD8
        ((sortKeys (s.frags.map Prod.fst)).map (dictGet s.frags)).flatten hst0
      have hlast := pyRfind2_nonneg 0xFF 0xD9
        ((sortKeys (s.frags.map Prod.fst)).map (dictGet s.frags)).flatten hen0
      exact s2x_slice_markers _ _ _ hfind hlast (by omega)
    · simp at heq
  · intro w h c hdr s p f s' hgen heq
    have hhdr : ∃ r, hdr = 0xFF :: 0xD8 :: r := by
      unfold generate_jpeg_headers at hgen
      split_ifs at hgen with hc hc3
      all_goals exact ⟨_, (Option.some.inj hgen).symm⟩
    obtain ⟨r, hr⟩ := hhdr
    unfold handle_payload at heq
    dsimp only at heq
    by_cases hv : p.length < 56 ∨ p.getD 1 0 ≠ 0x01
    · rw [if_pos hv] at heq
      exact absurd heq (by simp)
    · rw [if_neg hv] at heq
      by_cases hsent : p.getD 2 0 = 0x38
      · rw [if_pos hsent] at heq
        exact absurd heq (by simp)
      · rw [if_neg hsent] at heq
        injection heq with hstate hframe
        have h3 := Option.some.inj hframe
        constructor
        · rw [← h3, hr]
          rfl
        · rw [← h3, hr]
          exact ⟨_, rfl⟩

/-- Witness for C8: a concrete family A finalization whose two slices
concatenate to `FF D8 09 FF D9`. -/
theorem C8_frames_have_SOI_EOI_witness :
    (({ frame_id := some 7, data := [0xFF, 0xD8, 9, 0xFF, 0xD9] } : VideoFrame).data.take 2
        = [0xFF, 0xD8] ∧
      ∃ q, ({ frame_id := some 7, data := [0xFF, 0xD8, 9, 0xFF, 0xD9] } : VideoFrame).data
        = q ++ [0xFF, 0xD9]) := by
  exact C8_frames_have_SOI_EOI.1
    { cur_fid := some 7, frags := [(0, [0xFF, 0xD8, 9]), (1, [0xFF, 0xD9])] }
    { frame_id := some 7, data := [0xFF, 0xD8, 9, 0xFF, 0xD9] }
    { cur_fid := none, frags := [] }
    (by decide)

/-- C3 counterexample: a last-fragment datagram (byte 2 = 0x39 ≠ 0x38)
for frame 1 carrying fragment index 1 arrives at the freshly constructed
adapter, so fragment index 0 of the current frame is missing
(`expected_count` would be 2 while only 1 fragment is stored); the
reassembler nevertheless emits a frame from that ingest. -/
theorem C3_counterexample_emit_with_gap :
    c3_payload.getD 2 0 ≠ 0x38 ∧
    c3_payload.getD 32 0 + 256 * c3_payload.getD 33 0 = 1 ∧
    wifi_video_init.fragments = [] ∧
    (handle_payload wifi_hdr_640 wifi_video_init c3_payload).2 =
      some { frame_id := some 1, data := wifi_hdr_640 ++ EOI } := by
  refine ⟨by decide, by decide, rfl, ?_⟩
  set_option maxRecDepth 100000 in decide

/-- C3 amended: the family B video reassembler keeps no
`expected_count`; for a valid video datagram (length ≥ 56, byte 1 =
0x01) it emits a frame exactly when the datagram carries the
last-fragment sentinel (byte 2 ≠ 0x38), concatenating whatever
fragments are stored — whether or not earlier fragment indices are
missing; invalid datagrams never emit. -/
theorem C3_amended_emit_iff_sentinel (hdr : List ℕ) (s : WifiVideoState)
    (p : List ℕ) :
    (p.length < 56 ∨ p.getD 1 0 ≠ 0x01 →
      (handle_payload hdr s p).2 = none) ∧
    (56 ≤ p.length → p.getD 1 0 = 0x01 →
      ((handle_payload hdr s p).2 = none ↔ p.getD 2 0 = 0x38)) := by
  constructor
  · intro hv
    unfold handle_payload
    rw [if_pos hv]
  · intro h1 h2
    unfold handle_payload
    dsimp only
    rw [if_neg (by push_neg; exact ⟨h1, h2⟩)]
    by_cases hsent : p.getD 2 0 = 0x38
    · rw [if_pos hsent]
      exact iff_of_true rfl hsent
    · rw [if_neg hsent]
      exact iff_of_false (by simp) hsent

/-- Witness for C3's amended claim at the concrete last-fragment
datagram of the counterexample. -/
theorem C3_amended_emit_iff_sentinel_witness :
    (handle_payload wifi_hdr_640 wifi_video_init c3_payload).2 = none ↔
      c3_payload.getD 2 0 = 0x38 := by
  exact (C3_amended_emit_iff_sentinel wifi_hdr_640 wifi_video_init
    c3_payload).2 (by decide) (by decide)

set_option maxRecDepth 100000 in
/-- C10: every valid video datagram (length ≥ 56, byte 1 = 0x01) resets
the per-frame retry counter to zero; a watchdog firing performs a retry
(incrementing `retry_attempts` and `retry_cnt`, keeping the frame id)
only while `retry_cnt < MAX_RETRIES = 3`, and otherwise drops the frame
and advances; hence MAX_RETRIES bounds only consecutive firings with no
intervening datagram, and a concrete run — three timeouts, one received
continuation datagram, one more timeout — spends 4 > 3 retries on frame
1 without ever dropping or advancing it. -/
theorem C10_retry_reset_on_ingest :
    (∀ (hdr : List ℕ) (s : WifiVideoState) (p : List ℕ),
      56 ≤ p.length → p.getD 1 0 = 0x01 →
      (handle_payload hdr s p).1.retry_cnt = 0) ∧
    (∀ s : WifiVideoState, s.retry_cnt < 3 →
      (watchdog_fire s).retry_attempts = s.retry_attempts + 1 ∧
      (watchdog_fire s).retry_cnt = s.retry_cnt + 1 ∧
      (watchdog_fire s).current_fid = s.current_fid ∧
      (watchdog_fire s).frames_dropped = s.frames_dropped) ∧
    (∀ s : WifiVideoState, 3 ≤ s.retry_cnt →
      (watchdog_fire s).retry_attempts = s.retry_attempts ∧
      (watchdog_fire s).retry_cnt = 0 ∧
      (watchdog_fire s).current_fid = (s.current_fid + 1) % 65536 ∧
      (watchdog_fire s).frames_dropped = s.frames_dropped + 1) ∧
    ((wifi_video_run wifi_hdr_640 wifi_video_init
        [WifiVideoEvent.watchdog, WifiVideoEvent.watchdog,
         WifiVideoEvent.watchdog, WifiVideoEvent.ingest c10_payload,
         WifiVideoEvent.watchdog]).retry_attempts = 4 ∧
     (wifi_video_run wifi_hdr_640 wifi_video_init
        [WifiVideoEvent.watchdog, WifiVideoEvent.watchdog,
         WifiVideoEvent.watchdog, WifiVideoEvent.ingest c10_payload,
         WifiVideoEvent.watchdog]).current_fid = 1 ∧
     (wifi_video_run wifi_hdr_640 wifi_video_init
        [WifiVideoEvent.watchdog, WifiVideoEvent.watchdog,
         WifiVideoEvent.watchdog, WifiVideoEvent.ingest c10_payload,
         WifiVideoEvent.watchdog]).frames_dropped = 0 ∧
     3 < (wifi_video_run wifi_hdr_640 wifi_video_init
        [WifiVideoEvent.watchdog, WifiVideoEvent.watchdog,
         WifiVideoEvent.watchdog, WifiVideoEvent.ingest c10_payload,
         WifiVideoEvent.watchdog]).retry_attempts) := by
  refine ⟨?_, ?_, ?_, by decide, by decide, by decide, by decide⟩
  · intro hdr s p h1 h2
    unfold handle_payload
    dsimp only
    rw [if_neg (by push_neg; exact ⟨h1, h2⟩)]
    split_ifs <;> rfl
  · intro s hs
    unfold watchdog_fire
    rw [if_pos hs]
    exact ⟨rfl, rfl, rfl, rfl⟩
  · intro s hs
    unfold watchdog_fire
    rw [if_neg (by omega)]
    exact ⟨rfl, rfl, and_65535_eq_mod _, rfl⟩

/-- Witness for C10: the reset conjunct at the concrete continuation
datagram, and the retry conjunct at the fresh adapter state. -/
theorem C10_retry_reset_on_ingest_witness :
    (handle_payload wifi_hdr_640 wifi_video_init c10_payload).1.retry_cnt = 0 ∧
    (watchdog_fire wifi_video_init).retry_attempts =
      wifi_video_init.retry_attempts + 1 := by
  exact ⟨C10_retry_reset_on_ingest.1 wifi_hdr_640 wifi_video_init c10_payload
      (by decide) (by decide),
    (C10_retry_reset_on_ingest.2.1 wifi_video_init (by decide)).1⟩

end Turbodrone
